import Mathlib

/-!
gr-osmosdr, `lib/uhd/uhd_source_c.cc`.

A shallow embedding of the UHD source adapter `uhd_source_c` and the properties
of its constructor, device listing and control surface.

Conventions of the embedding.

* `double` is embedded as `ℚ`: arithmetic is taken as exact.
* `size_t` channel and mainboard indices are embedded as `Nat`.
* `std::complex<double>` is embedded as a pair `ℚ × ℚ`.
* `dict_t` (`std::map<std::string, std::string>`) is embedded as the sequence of
  its entries in iteration order.
* The vendor driver object `gr::uhd::usrp_source` is not part of this
  repository.  It is embedded as a store of the values last set through each
  entry point, together with the list of every call it has received.
-/

set_option autoImplicit false

namespace UhdSource

/-! ## Argument dictionary -/

/-- The type `dict_t` of arg_helpers.h, a `std::map` from option name to option
value, given by its entries in iteration order. -/
structure dict_t where
  entries : List (String × String)
deriving DecidableEq

/-- The member `count` of `std::map`: 1 when the key is present and 0 otherwise. -/
def dict_t.count (dict : dict_t) (key : String) : Nat :=
  if dict.entries.any (fun entry => entry.1 == key) then 1 else 0

/-- The member `operator[]` of `std::map`, read at a key: the mapped value, and
the empty string for a key that is absent. -/
def dict_t.get (dict : dict_t) (key : String) : String :=
  match dict.entries.find? (fun entry => entry.1 == key) with
  | some entry => entry.2
  | none => ""

/-- The assignment `result[key] = value` on a `std::map`: the value of a key
already present is replaced, a new key is placed in key order. -/
def dict_t.insertEntries (key value : String) : List (String × String) → List (String × String)
  | [] => [(key, value)]
  | entry :: rest =>
    if key.data < entry.1.data then (key, value) :: entry :: rest
    else if key = entry.1 then (key, value) :: rest
    else entry :: dict_t.insertEntries key value rest

/-- The assignment `dict[key] = value`. -/
def dict_t.set (dict : dict_t) (key value : String) : dict_t :=
  ⟨dict_t.insertEntries key value dict.entries⟩

/-- Modelled from the spec: the tokenizer of arg_helpers.h, which is not among
the sources.  Splits a list of characters at every occurrence of `sep`. -/
def splitChars (sep : Char) : List Char → List (List Char)
  | [] => [[]]
  | c :: cs =>
    match splitChars sep cs with
    | [] => [[c]]
    | piece :: pieces => if c = sep then [] :: piece :: pieces else (c :: piece) :: pieces

/-- Modelled from the spec: `param_to_pair` of arg_helpers.h, which is not among
the sources.  Splits one `key=value` parameter at its first `=`; a bare key has
the empty value. -/
def param_to_pair (param : List Char) : String × String :=
  (String.mk (param.takeWhile (fun c => c != '=')),
   String.mk ((param.dropWhile (fun c => c != '=')).drop 1))

/-- Modelled from the spec: `params_to_dict` of arg_helpers.h, which is not
among the sources.  The configuration map is built by splitting the argument
string on commas and `=`; a bare key is mapped to the empty value. -/
def params_to_dict (args : String) : dict_t :=
  (splitChars ',' args.data).foldl
    (fun result param => result.set (param_to_pair param).1 (param_to_pair param).2)
    ⟨[]⟩

/-- Modelled from the spec: `boost::lexical_cast`, an external library, taken as
a parameter.  Numeric option values are parsed with locale-independent decimal
parsing, and a malformed value is a type-conversion error (`none`). -/
structure lexical_cast where
  to_size_t : String → Option Nat
  to_double : String → Option ℚ

/-- The value of a run of decimal digits, most significant first, added to
`acc`; `none` when a character is not a digit. -/
def digitsValue : List Char → Nat → Option Nat
  | [], acc => some acc
  | c :: cs, acc =>
    if '0' ≤ c ∧ c ≤ '9' then digitsValue cs (10 * acc + (c.toNat - '0'.toNat)) else none

/-- A decimal parser for unsigned integers in the range of a 64-bit `size_t`. -/
def decimal_size_t (s : String) : Option Nat :=
  if s.data = [] then none
  else match digitsValue s.data 0 with
    | some n => if n < 2 ^ 64 then some n else none
    | none => none

/-- A decimal parser for numbers written `digits` or `digits.digits`, with an
optional leading minus sign. -/
def decimal_double (s : String) : Option ℚ :=
  let body := if s.data.head? = some '-' then s.data.drop 1 else s.data
  let whole := body.takeWhile (fun c => c != '.')
  let frac := (body.dropWhile (fun c => c != '.')).drop 1
  if whole = [] then none
  else match digitsValue whole 0, digitsValue frac 0 with
    | some w, some f =>
      let magnitude : ℚ := (w : ℚ) + (f : ℚ) / (10 : ℚ) ^ frac.length
      some (if s.data.head? = some '-' then -magnitude else magnitude)
    | _, _ => none

/-- A concrete instance of the parsers, used to evaluate examples. -/
def decimal_cast : lexical_cast := ⟨decimal_size_t, decimal_double⟩

/-! ## The vendor driver -/

/-- The sample formats of `uhd::io_type_t`. -/
inductive io_type_t where
  | COMPLEX_FLOAT64
  | COMPLEX_FLOAT32
  | COMPLEX_INT16
  | COMPLEX_INT8
deriving DecidableEq

/-- The tune request `uhd::tune_request_t(target_freq, lo_off)`. -/
structure tune_request_t where
  target_freq : ℚ
  lo_off : ℚ
deriving DecidableEq

/-- The calls the adapter makes on the driver object `_src`. -/
inductive driver_call where
  | set_subdev_spec (spec : String)
  | get_subdev_spec
  | set_samp_rate (rate : ℚ)
  | get_samp_rate
  | set_center_freq (tune_req : tune_request_t) (chan : Nat)
  | get_center_freq (chan : Nat)
  | set_clock_source (clock_source : String) (mboard : Nat)
  | get_clock_source (mboard : Nat)
  | set_gain (gain : ℚ) (chan : Nat)
  | set_gain_named (gain : ℚ) (name : String) (chan : Nat)
  | get_gain (chan : Nat)
  | get_gain_named (name : String) (chan : Nat)
  | set_antenna (antenna : String) (chan : Nat)
  | get_antenna (chan : Nat)
  | set_auto_dc_offset (enable : Bool) (chan : Nat)
  | set_dc_offset (offset : ℚ × ℚ) (chan : Nat)
  | set_iq_balance (balance : ℚ × ℚ) (chan : Nat)
  | set_bandwidth (bandwidth : ℚ) (chan : Nat)
  | get_bandwidth (chan : Nat)
deriving DecidableEq

/-- Modelled from the spec: the state of the vendor driver, an external
collaborator seen through its capability set (construct, get/set rate,
frequency, gain, antenna, bandwidth, clock source, DC offset, IQ balance).  It
is the store of the values last set: per channel for the channel settings, per
mainboard for the clock source, device wide for the sample rate. -/
structure usrp_state where
  device_addr : String
  io_type : io_type_t
  num_channels : Nat
  subdev_spec : String
  samp_rate : ℚ
  tune : Nat → tune_request_t
  clock_source : Nat → String
  gain : Nat → ℚ
  gain_named : String × Nat → ℚ
  antenna : Nat → String
  auto_dc_offset : Nat → Bool
  dc_offset : Nat → ℚ × ℚ
  iq_balance : Nat → ℚ × ℚ
  bandwidth : Nat → ℚ

/-- Modelled from the spec: the driver object `gr::uhd::usrp_source`, its state
together with every call it has received, oldest first. -/
structure usrp_source where
  dev : usrp_state
  calls : List driver_call

namespace usrp_source

/-- Modelled from the spec: `usrp_source::make(device_addr, io_type,
num_channels)`; a fresh driver has received no call and holds the defaults. -/
def make (device_addr : String) (io_type : io_type_t) (num_channels : Nat) : usrp_source :=
  { dev :=
      { device_addr := device_addr, io_type := io_type, num_channels := num_channels,
        subdev_spec := "", samp_rate := 0, tune := fun _ => ⟨0, 0⟩,
        clock_source := fun _ => "", gain := fun _ => 0, gain_named := fun _ => 0,
        antenna := fun _ => "", auto_dc_offset := fun _ => false,
        dc_offset := fun _ => (0, 0), iq_balance := fun _ => (0, 0),
        bandwidth := fun _ => 0 },
    calls := [] }

/-- The driver receives `call`. -/
def record (src : usrp_source) (call : driver_call) : usrp_source :=
  { src with calls := src.calls ++ [call] }

/-- Modelled from the spec: the driver entry point `set_subdev_spec`, which
stores the value it is given and records the call. -/
def set_subdev_spec (spec : String) (src : usrp_source) : usrp_source :=
  { dev := { src.dev with subdev_spec := spec },
    calls := src.calls ++ [.set_subdev_spec spec] }

/-- Modelled from the spec: the driver entry point `get_subdev_spec`, which
reports the stored value and records the call. -/
def get_subdev_spec (src : usrp_source) : String × usrp_source :=
  (src.dev.subdev_spec, src.record .get_subdev_spec)

/-- Modelled from the spec: the driver entry point `set_samp_rate`, which stores
the value it is given and records the call. -/
def set_samp_rate (rate : ℚ) (src : usrp_source) : usrp_source :=
  { dev := { src.dev with samp_rate := rate },
    calls := src.calls ++ [.set_samp_rate rate] }

/-- Modelled from the spec: the driver entry point `get_samp_rate`, which
reports the stored value and records the call. -/
def get_samp_rate (src : usrp_source) : ℚ × usrp_source :=
  (src.dev.samp_rate, src.record .get_samp_rate)

/-- Modelled from the spec: the driver entry point `set_center_freq`, which
stores the value it is given and records the call. -/
def set_center_freq (tune_req : tune_request_t) (chan : Nat) (src : usrp_source) : usrp_source :=
  { dev := { src.dev with tune := Function.update src.dev.tune chan tune_req },
    calls := src.calls ++ [.set_center_freq tune_req chan] }

/-- The center frequency the driver reports for `chan`: the target of the last
tune request on that channel. -/
def get_center_freq (chan : Nat) (src : usrp_source) : ℚ × usrp_source :=
  ((src.dev.tune chan).target_freq, src.record (.get_center_freq chan))

/-- Modelled from the spec: the driver entry point `set_clock_source`, which
stores the value it is given and records the call. -/
def set_clock_source (clock_source : String) (mboard : Nat) (src : usrp_source) : usrp_source :=
  { dev := { src.dev with clock_source := Function.update src.dev.clock_source mboard clock_source },
    calls := src.calls ++ [.set_clock_source clock_source mboard] }

/-- Modelled from the spec: the driver entry point `get_clock_source`, which
reports the stored value and records the call. -/
def get_clock_source (mboard : Nat) (src : usrp_source) : String × usrp_source :=
  (src.dev.clock_source mboard, src.record (.get_clock_source mboard))

/-- Modelled from the spec: the driver entry point `set_gain`, which stores the
value it is given and records the call. -/
def set_gain (gain : ℚ) (chan : Nat) (src : usrp_source) : usrp_source :=
  { dev := { src.dev with gain := Function.update src.dev.gain chan gain },
    calls := src.calls ++ [.set_gain gain chan] }

/-- Modelled from the spec: the driver entry point `set_gain_named`, which
stores the value it is given and records the call. -/
def set_gain_named (gain : ℚ) (name : String) (chan : Nat) (src : usrp_source) : usrp_source :=
  { dev := { src.dev with gain_named := Function.update src.dev.gain_named (name, chan) gain },
    calls := src.calls ++ [.set_gain_named gain name chan] }

/-- Modelled from the spec: the driver entry point `get_gain`, which reports the
stored value and records the call. -/
def get_gain (chan : Nat) (src : usrp_source) : ℚ × usrp_source :=
  (src.dev.gain chan, src.record (.get_gain chan))

/-- Modelled from the spec: the driver entry point `get_gain_named`, which
reports the stored value and records the call. -/
def get_gain_named (name : String) (chan : Nat) (src : usrp_source) : ℚ × usrp_source :=
  (src.dev.gain_named (name, chan), src.record (.get_gain_named name chan))

/-- Modelled from the spec: the driver entry point `set_antenna`, which stores
the value it is given and records the call. -/
def set_antenna (antenna : String) (chan : Nat) (src : usrp_source) : usrp_source :=
  { dev := { src.dev with antenna := Function.update src.dev.antenna chan antenna },
    calls := src.calls ++ [.set_antenna antenna chan] }

/-- Modelled from the spec: the driver entry point `get_antenna`, which reports
the stored value and records the call. -/
def get_antenna (chan : Nat) (src : usrp_source) : String × usrp_source :=
  (src.dev.antenna chan, src.record (.get_antenna chan))

/-- Modelled from the spec: the driver entry point `set_auto_dc_offset`, which
stores the value it is given and records the call. -/
def set_auto_dc_offset (enable : Bool) (chan : Nat) (src : usrp_source) : usrp_source :=
  { dev := { src.dev with auto_dc_offset := Function.update src.dev.auto_dc_offset chan enable },
    calls := src.calls ++ [.set_auto_dc_offset enable chan] }

/-- Modelled from the spec: the driver entry point `set_dc_offset`, which stores
the value it is given and records the call. -/
def set_dc_offset (offset : ℚ × ℚ) (chan : Nat) (src : usrp_source) : usrp_source :=
  { dev := { src.dev with dc_offset := Function.update src.dev.dc_offset chan offset },
    calls := src.calls ++ [.set_dc_offset offset chan] }

/-- Modelled from the spec: the driver entry point `set_iq_balance`, which
stores the value it is given and records the call. -/
def set_iq_balance (balance : ℚ × ℚ) (chan : Nat) (src : usrp_source) : usrp_source :=
  { dev := { src.dev with iq_balance := Function.update src.dev.iq_balance chan balance },
    calls := src.calls ++ [.set_iq_balance balance chan] }

/-- Modelled from the spec: the driver entry point `set_bandwidth`, which stores
the value it is given and records the call. -/
def set_bandwidth (bandwidth : ℚ) (chan : Nat) (src : usrp_source) : usrp_source :=
  { dev := { src.dev with bandwidth := Function.update src.dev.bandwidth chan bandwidth },
    calls := src.calls ++ [.set_bandwidth bandwidth chan] }

/-- Modelled from the spec: the driver entry point `get_bandwidth`, which
reports the stored value and records the call. -/
def get_bandwidth (chan : Nat) (src : usrp_source) : ℚ × usrp_source :=
  (src.dev.bandwidth chan, src.record (.get_bandwidth chan))

end usrp_source

/-! ## The adapter -/

/-- The exceptions that leave the adapter. -/
inductive exception where
  | bad_lexical_cast
  | runtime_error (what : String)
deriving DecidableEq

/-- The informational lines the adapter writes to `std::cerr`. -/
inductive notice where
  | subdev_spec (spec : String)
  | lo_offset (hz : ℚ)
  | clock_source (clock_source : String)
  | set_clock_source (clock_source : String)
deriving DecidableEq

/-- The object `uhd_source_c`: its data members, the connections of the
hierarchical block it derives from, as pairs (device output, adapter output) in
the order they were made, and the lines written to `std::cerr`. -/
structure uhd_source_c where
  _center_freq : ℚ
  _freq_corr : ℚ
  _lo_offset : ℚ
  _clock_source : String
  _src : usrp_source
  connections : List (Nat × Nat)
  cerr : List notice

/-- Modelled from the spec: the enumerators of `osmosdr::source::DCOffsetMode`
and `osmosdr::source::IQBalanceMode` are declared in osmosdr/source.h, which is
not among the sources.  Each mode set is Off, Manual, Automatic, numbered from 0
in that order.  This is the mode Off of the DC offset correction. -/
def DCOffsetOff : Int := 0

/-- Modelled from the spec: the mode Manual of the DC offset correction. -/
def DCOffsetManual : Int := 1

/-- Modelled from the spec: the mode Automatic of the DC offset correction. -/
def DCOffsetAutomatic : Int := 2

/-- Modelled from the spec: the mode Off of the IQ balance correction. -/
def IQBalanceOff : Int := 0

/-- Modelled from the spec: the mode Manual of the IQ balance correction. -/
def IQBalanceManual : Int := 1

/-- Modelled from the spec: the mode Automatic of the IQ balance correction. -/
def IQBalanceAutomatic : Int := 2

/-- Modelled from the spec: the default argument of the `chan` parameter of
`set_center_freq`, declared in uhd_source_c.h, which is not among the sources.
The first channel, 0. -/
def default_chan : Nat := 0

/-- The macro `APPLY_PPM_CORR(val, ppm)`. -/
def APPLY_PPM_CORR (val ppm : ℚ) : ℚ := val * (1.0 + ppm * 0.000001)

/-- Modelled from the spec: a device address `uhd::device_addr_t` reported by
driver discovery, a map from field name to field value.  Its serialisation
`to_string()` belongs to the driver and is taken as a parameter where needed. -/
structure device_addr_t where
  fields : List (String × String)
deriving DecidableEq

/-- The member `cast<std::string>(key, def)` of a device address: the value of
the field `key`, and `def` when the field is absent. -/
def device_addr_t.cast (dev : device_addr_t) (key : String) (default : String) : String :=
  match dev.fields.find? (fun field => field.1 == key) with
  | some field => field.2
  | none => default

/-- The function `boost::to_upper` in the classic locale: the letters a to z
become A to Z, every other character is kept. -/
def to_upper (s : String) : String := String.mk (s.data.map Char.toUpper)

namespace uhd_source_c

/-- The member `connect(_src, src_port, self(), dst_port)` of the hierarchical
block. -/
def connect (src_port dst_port : Nat) (self : uhd_source_c) : uhd_source_c :=
  { self with connections := self.connections ++ [(src_port, dst_port)] }

/-- The loop of the constructor that rebuilds the argument string without the
internal arguments. -/
def rebuild_arguments (dict : dict_t) : String :=
  dict.entries.foldl
    (fun arguments entry =>
      if "uhd" ≠ entry.1 ∧
         "nchan" ≠ entry.1 ∧
         "subdev" ≠ entry.1 ∧
         "lo_offset" ≠ entry.1 ∧
         "clock_source" ≠ entry.1 then
        arguments ++ (entry.1 ++ "=" ++ entry.2 ++ ",")
      else arguments)
    ""

/-- The body of the constructor `uhd_source_c::uhd_source_c` (lines 48-92), from
the dictionary `dict = params_to_dict(args)` on.  A failed `boost::lexical_cast`
leaves the constructor by an exception.  The output signature computed by
`args_to_io_signature(args)` in the initialiser list belongs to arg_helpers.h
and is not embedded. -/
def construct (cast : lexical_cast) (dict : dict_t) : Except exception uhd_source_c := do
  let nchan : Nat := 1
  let nchan ←
    (if dict.count "nchan" ≠ 0 then
      (match cast.to_size_t (dict.get "nchan") with
        | some n => pure n
        | none => throw exception.bad_lexical_cast)
    else pure nchan)
  let nchan := if 0 = nchan then 1 else nchan
  let _lo_offset : ℚ := 0.0
  let _lo_offset ←
    (if dict.count "lo_offset" ≠ 0 then
      (match cast.to_double (dict.get "lo_offset") with
        | some x => pure x
        | none => throw exception.bad_lexical_cast)
    else pure _lo_offset)
  let _clock_source := ""
  let _clock_source :=
    if dict.count "clock_source" ≠ 0 then dict.get "clock_source" else _clock_source
  let arguments := rebuild_arguments dict
  let _src := usrp_source.make arguments io_type_t.COMPLEX_FLOAT32 nchan
  let _src := if dict.count "subdev" ≠ 0 then _src.set_subdev_spec (dict.get "subdev") else _src
  let (spec, _src) := _src.get_subdev_spec
  let cerr := [notice.subdev_spec spec]
  let cerr := if (0.0 : ℚ) ≠ _lo_offset then cerr ++ [notice.lo_offset _lo_offset] else cerr
  let cerr := if "" ≠ _clock_source then cerr ++ [notice.clock_source _clock_source] else cerr
  let self : uhd_source_c :=
    { _center_freq := 0.0, _freq_corr := 0.0, _lo_offset := _lo_offset,
      _clock_source := _clock_source, _src := _src, connections := [], cerr := cerr }
  pure ((List.range nchan).foldl (fun self i => self.connect i i) self)

/-- The factory `make_uhd_source_c(args)`. -/
def make_uhd_source_c (cast : lexical_cast) (args : String) : Except exception uhd_source_c :=
  construct cast (params_to_dict args)

/-- The static member `uhd_source_c::get_devices` (lines 99-134); `found` is the
result of `uhd::device::find(hint)` and `to_string` the serialisation of a
device address by the driver. -/
def get_devices (to_string : device_addr_t → String) (found : List device_addr_t) :
    List String :=
  found.foldl
    (fun devices dev =>
      let args := "uhd," ++ to_string dev
      let type := dev.cast "type" "usrp"
      let name := dev.cast "name" ""
      let serial := dev.cast "serial" ""
      let label := "Ettus"
      let label := if "umtrx" = type then "Fairwaves" else label
      let label := if type.length ≠ 0 then label ++ (" " ++ to_upper type) else label
      let label := if name.length ≠ 0 then label ++ (" (" ++ name ++ ")") else label
      let label := if serial.length ≠ 0 then label ++ (" " ++ serial) else label
      let args := args ++ (",label='" ++ label ++ "'")
      devices ++ [args])
    []

/-- The member `get_sample_rate` (lines 170-173). -/
def get_sample_rate (self : uhd_source_c) : ℚ × uhd_source_c :=
  let (rate, _src) := self._src.get_samp_rate
  (rate, { self with _src := _src })

/-- The member `set_sample_rate` (lines 164-168). -/
def set_sample_rate (rate : ℚ) (self : uhd_source_c) : ℚ × uhd_source_c :=
  let self := { self with _src := self._src.set_samp_rate rate }
  get_sample_rate self

/-- The member `get_center_freq` (lines 200-203). -/
def get_center_freq (chan : Nat) (self : uhd_source_c) : ℚ × uhd_source_c :=
  let (freq, _src) := self._src.get_center_freq chan
  (freq, { self with _src := _src })

/-- The member `set_center_freq` (lines 185-198). -/
def set_center_freq (freq : ℚ) (chan : Nat) (self : uhd_source_c) : ℚ × uhd_source_c :=
  let corr_freq := APPLY_PPM_CORR freq self._freq_corr
  let tune_req : tune_request_t := ⟨corr_freq, self._lo_offset⟩
  let self := { self with _src := self._src.set_center_freq tune_req chan }
  let self := { self with _center_freq := freq }
  get_center_freq chan self

/-- The member `get_clock_source` (lines 213-216). -/
def get_clock_source (mboard : Nat) (self : uhd_source_c) : String × uhd_source_c :=
  let (clock_source, _src) := self._src.get_clock_source mboard
  (clock_source, { self with _src := _src })

/-- The member `set_clock_source` (lines 205-211). -/
def set_clock_source (clock_source : String) (mboard : Nat) (self : uhd_source_c) :
    String × uhd_source_c :=
  let self := { self with _src := self._src.set_clock_source clock_source mboard }
  let self := { self with cerr := self.cerr ++ [notice.set_clock_source clock_source] }
  get_clock_source mboard self

/-- The member `get_freq_corr` (lines 227-230). -/
def get_freq_corr (_chan : Nat) (self : uhd_source_c) : ℚ × uhd_source_c :=
  (self._freq_corr, self)

/-- The member `set_freq_corr`; its call `set_center_freq( _center_freq )`
passes no channel, so the channel is the default one. -/
def set_freq_corr (ppm : ℚ) (chan : Nat) (self : uhd_source_c) : ℚ × uhd_source_c :=
  let self := { self with _freq_corr := ppm }
  let self := (set_center_freq self._center_freq default_chan self).2
  get_freq_corr chan self

/-- The member `get_gain(chan)` (lines 271-274). -/
def get_gain (chan : Nat) (self : uhd_source_c) : ℚ × uhd_source_c :=
  let (gain, _src) := self._src.get_gain chan
  (gain, { self with _src := _src })

/-- The member `get_gain(name, chan)` (lines 276-279). -/
def get_gain_named (name : String) (chan : Nat) (self : uhd_source_c) : ℚ × uhd_source_c :=
  let (gain, _src) := self._src.get_gain_named name chan
  (gain, { self with _src := _src })

/-- The member `set_gain(gain, chan)` (lines 257-262). -/
def set_gain (gain : ℚ) (chan : Nat) (self : uhd_source_c) : ℚ × uhd_source_c :=
  let self := { self with _src := self._src.set_gain gain chan }
  get_gain chan self

/-- The member `set_gain(gain, name, chan)` (lines 264-269). -/
def set_gain_named (gain : ℚ) (name : String) (chan : Nat) (self : uhd_source_c) :
    ℚ × uhd_source_c :=
  let self := { self with _src := self._src.set_gain_named gain name chan }
  get_gain_named name chan self

/-- The member `get_antenna` (lines 293-296). -/
def get_antenna (chan : Nat) (self : uhd_source_c) : String × uhd_source_c :=
  let (antenna, _src) := self._src.get_antenna chan
  (antenna, { self with _src := _src })

/-- The member `set_antenna` (lines 286-291). -/
def set_antenna (antenna : String) (chan : Nat) (self : uhd_source_c) : String × uhd_source_c :=
  let self := { self with _src := self._src.set_antenna antenna chan }
  let (antenna, _src) := self._src.get_antenna chan
  (antenna, { self with _src := _src })

/-- The member `set_dc_offset_mode` (lines 298-308). -/
def set_dc_offset_mode (mode : Int) (chan : Nat) (self : uhd_source_c) : uhd_source_c :=
  if DCOffsetOff = mode then
    let self := { self with _src := self._src.set_auto_dc_offset false chan }
    { self with _src := self._src.set_dc_offset (0.0, 0.0) chan }
  else if DCOffsetManual = mode then
    { self with _src := self._src.set_auto_dc_offset false chan }
  else if DCOffsetAutomatic = mode then
    { self with _src := self._src.set_auto_dc_offset true chan }
  else self

/-- The member `set_dc_offset` (lines 310-313). -/
def set_dc_offset (offset : ℚ × ℚ) (chan : Nat) (self : uhd_source_c) : uhd_source_c :=
  { self with _src := self._src.set_dc_offset offset chan }

/-- The member `set_iq_balance_mode`.  The first component is the exception
thrown, if any; the second is the object after the call. -/
def set_iq_balance_mode (mode : Int) (chan : Nat) (self : uhd_source_c) :
    Except exception Unit × uhd_source_c :=
  if IQBalanceOff = mode then
    (.ok (), { self with _src := self._src.set_iq_balance (0.0, 0.0) chan })
  else if IQBalanceManual = mode then
    (.ok (), self)
  else if IQBalanceAutomatic = mode then
    (.error (exception.runtime_error "Automatic IQ imbalance correction not implemented"), self)
  else (.ok (), self)

/-- The member `set_iq_balance` (lines 326-329). -/
def set_iq_balance (balance : ℚ × ℚ) (chan : Nat) (self : uhd_source_c) : uhd_source_c :=
  { self with _src := self._src.set_iq_balance balance chan }

/-- The member `get_bandwidth` (lines 338-341). -/
def get_bandwidth (chan : Nat) (self : uhd_source_c) : ℚ × uhd_source_c :=
  let (bandwidth, _src) := self._src.get_bandwidth chan
  (bandwidth, { self with _src := _src })

/-- The member `set_bandwidth` (lines 331-336). -/
def set_bandwidth (bandwidth : ℚ) (chan : Nat) (self : uhd_source_c) : ℚ × uhd_source_c :=
  let self := { self with _src := self._src.set_bandwidth bandwidth chan }
  let (bandwidth, _src) := self._src.get_bandwidth chan
  (bandwidth, { self with _src := _src })

/-- The adapter-wide tuning state `(center_freq, freq_corr, lo_offset)`. -/
def tuning_state (self : uhd_source_c) : ℚ × ℚ × ℚ :=
  (self._center_freq, self._freq_corr, self._lo_offset)

end uhd_source_c

/-! ## The setters as data -/

/-- A call of one setter of the control surface, with its arguments. -/
inductive setter where
  | set_sample_rate (rate : ℚ)
  | set_center_freq (freq : ℚ) (chan : Nat)
  | set_freq_corr (ppm : ℚ) (chan : Nat)
  | set_gain (gain : ℚ) (chan : Nat)
  | set_gain_named (gain : ℚ) (name : String) (chan : Nat)
  | set_antenna (antenna : String) (chan : Nat)
  | set_bandwidth (bandwidth : ℚ) (chan : Nat)
  | set_clock_source (clock_source : String) (mboard : Nat)
  | set_dc_offset_mode (mode : Int) (chan : Nat)
  | set_dc_offset (offset : ℚ × ℚ) (chan : Nat)
  | set_iq_balance_mode (mode : Int) (chan : Nat)
  | set_iq_balance (balance : ℚ × ℚ) (chan : Nat)

/-- What a setter hands back to its caller. -/
inductive returned where
  | double (x : ℚ)
  | string (s : String)
  | void
  | thrown (e : exception)
deriving DecidableEq

/-- Runs the setter on the adapter. -/
def setter.apply : setter → uhd_source_c → returned × uhd_source_c
  | .set_sample_rate rate, self =>
    let r := self.set_sample_rate rate; (.double r.1, r.2)
  | .set_center_freq freq chan, self =>
    let r := self.set_center_freq freq chan; (.double r.1, r.2)
  | .set_freq_corr ppm chan, self =>
    let r := self.set_freq_corr ppm chan; (.double r.1, r.2)
  | .set_gain gain chan, self =>
    let r := self.set_gain gain chan; (.double r.1, r.2)
  | .set_gain_named gain name chan, self =>
    let r := self.set_gain_named gain name chan; (.double r.1, r.2)
  | .set_antenna antenna chan, self =>
    let r := self.set_antenna antenna chan; (.string r.1, r.2)
  | .set_bandwidth bandwidth chan, self =>
    let r := self.set_bandwidth bandwidth chan; (.double r.1, r.2)
  | .set_clock_source clock_source mboard, self =>
    let r := self.set_clock_source clock_source mboard; (.string r.1, r.2)
  | .set_dc_offset_mode mode chan, self => (.void, self.set_dc_offset_mode mode chan)
  | .set_dc_offset offset chan, self => (.void, self.set_dc_offset offset chan)
  | .set_iq_balance_mode mode chan, self =>
    match self.set_iq_balance_mode mode chan with
    | (.ok (), self) => (.void, self)
    | (.error e, self) => (.thrown e, self)
  | .set_iq_balance balance chan, self => (.void, self.set_iq_balance balance chan)

/-- Runs `set_center_freq(freq, chan)` and then `set_freq_corr(ppm, chan)` for
each `(ppm, chan)` of `corrections`, in order. -/
def tune_then_correct (freq : ℚ) (chan : Nat) (corrections : List (ℚ × Nat))
    (self : uhd_source_c) : uhd_source_c :=
  corrections.foldl (fun self pc => (self.set_freq_corr pc.1 pc.2).2)
    (self.set_center_freq freq chan).2

/-- The tune requests among a list of driver calls, with their channels, in the
order they were issued. -/
def tune_requests (calls : List driver_call) : List (tune_request_t × Nat) :=
  calls.filterMap (fun call =>
    match call with
    | .set_center_freq tune_req chan => some (tune_req, chan)
    | _ => none)

/-- A concrete adapter: one channel, nothing tuned yet. -/
def fresh : uhd_source_c :=
  { _center_freq := 0, _freq_corr := 0, _lo_offset := 0, _clock_source := "",
    _src := usrp_source.make "" io_type_t.COMPLEX_FLOAT32 1, connections := [(0, 0)], cerr := [] }

/-- The label of a listed device as the specification words it: the vendor,
Fairwaves for the type umtrx and Ettus otherwise; then, for a non-empty type
(usrp when the field is absent), a space and the type in upper case; then, for a
non-empty name, the name in parentheses after a space; then, for a non-empty
serial, a space and the serial. -/
def spec_label (dev : device_addr_t) : String :=
  (if dev.cast "type" "usrp" = "umtrx" then "Fairwaves" else "Ettus")
    ++ (if dev.cast "type" "usrp" ≠ "" then " " ++ to_upper (dev.cast "type" "usrp") else "")
    ++ (if dev.cast "name" "" ≠ "" then " (" ++ dev.cast "name" "" ++ ")" else "")
    ++ (if dev.cast "serial" "" ≠ "" then " " ++ dev.cast "serial" "" else "")

/-- The adapter built from the argument string `uhd,nchan=2`. -/
def two_channels : uhd_source_c :=
  match uhd_source_c.make_uhd_source_c decimal_cast "uhd,nchan=2" with
  | .ok self => self
  | .error _ => fresh

/-- The two-channel adapter after `set_center_freq(100, 0)` and
`set_center_freq(200, 1)`. -/
def two_channels_tuned : uhd_source_c :=
  ((two_channels.set_center_freq 100 0).2.set_center_freq 200 1).2

/-! ## The constructor -/

theorem foldl_connect (l : List Nat) (self : uhd_source_c) :
    l.foldl (fun self i => self.connect i i) self
      = { self with connections := self.connections ++ l.map (fun i => (i, i)) } := by
  induction l generalizing self with
  | nil => simp
  | cons i l ih =>
    rw [List.foldl_cons, ih]
    simp [uhd_source_c.connect]

theorem foldl_rebuild (l : List (String × String)) (init : String) :
    l.foldl
        (fun arguments entry =>
          if "uhd" ≠ entry.1 ∧ "nchan" ≠ entry.1 ∧ "subdev" ≠ entry.1 ∧
             "lo_offset" ≠ entry.1 ∧ "clock_source" ≠ entry.1 then
            arguments ++ (entry.1 ++ "=" ++ entry.2 ++ ",")
          else arguments)
        init
      = init ++ String.join ((l.filter (fun entry =>
            entry.1 ∉ ["uhd", "nchan", "subdev", "lo_offset", "clock_source"])).map
          (fun entry => entry.1 ++ "=" ++ entry.2 ++ ",")) := by
  induction l generalizing init with
  | nil => simp [String.join]
  | cons entry l ih =>
    rw [List.foldl_cons, ih]
    by_cases h : "uhd" ≠ entry.1 ∧ "nchan" ≠ entry.1 ∧ "subdev" ≠ entry.1 ∧
        "lo_offset" ≠ entry.1 ∧ "clock_source" ≠ entry.1
    · have hm : entry.1 ∉ ["uhd", "nchan", "subdev", "lo_offset", "clock_source"] := by
        simp only [List.mem_cons, List.mem_singleton, List.not_mem_nil, or_false, not_or]
        exact ⟨fun e => h.1 e.symm, fun e => h.2.1 e.symm, fun e => h.2.2.1 e.symm,
          fun e => h.2.2.2.1 e.symm, fun e => h.2.2.2.2 e.symm⟩
      rw [if_pos h, List.filter_cons_of_pos (by simpa using hm)]
      apply String.ext
      simp [String.data_join, List.append_assoc]
    · have hm : ¬ entry.1 ∉ ["uhd", "nchan", "subdev", "lo_offset", "clock_source"] := by
        simp only [List.mem_cons, List.mem_singleton, List.not_mem_nil, or_false, not_or]
        intro hh
        exact h ⟨fun e => hh.1 e.symm, fun e => hh.2.1 e.symm, fun e => hh.2.2.1 e.symm,
          fun e => hh.2.2.2.1 e.symm, fun e => hh.2.2.2.2 e.symm⟩
      rw [if_neg h, List.filter_cons_of_neg (by simpa using hm)]

theorem rebuild_arguments_eq (dict : dict_t) :
    uhd_source_c.rebuild_arguments dict
      = String.join ((dict.entries.filter (fun entry =>
            entry.1 ∉ ["uhd", "nchan", "subdev", "lo_offset", "clock_source"])).map
          (fun entry => entry.1 ++ "=" ++ entry.2 ++ ",")) := by
  unfold uhd_source_c.rebuild_arguments
  rw [foldl_rebuild]
  simp

/-- The constructor returns when both numeric options, where present, parse:
the driver is made with the rebuilt argument string, the complex float sample
format and the channel count, and one connection per channel is made. -/
theorem construct_returns (cast : lexical_cast) (dict : dict_t) (n : Nat) (x : ℚ)
    (hn : (if dict.count "nchan" ≠ 0 then cast.to_size_t (dict.get "nchan") else some 1) = some n)
    (hx : (if dict.count "lo_offset" ≠ 0 then cast.to_double (dict.get "lo_offset") else some 0)
      = some x) :
    ∃ self, uhd_source_c.construct cast dict = .ok self ∧
      self._src.dev.device_addr = uhd_source_c.rebuild_arguments dict ∧
      self._src.dev.io_type = io_type_t.COMPLEX_FLOAT32 ∧
      self._src.dev.num_channels = (if 0 = n then 1 else n) ∧
      self.connections = (List.range (if 0 = n then 1 else n)).map (fun i => (i, i)) ∧
      self._lo_offset = x := by
  have e1 : (if dict.count "nchan" ≠ 0 then
        (match cast.to_size_t (dict.get "nchan") with
          | some n => pure n
          | none => throw exception.bad_lexical_cast)
      else pure 1 : Except exception Nat) = pure n := by
    by_cases h1 : dict.count "nchan" ≠ 0
    · rw [if_pos h1] at hn ⊢; rw [hn]
    · rw [if_neg h1] at hn ⊢; cases hn; rfl
  have e2 : (if dict.count "lo_offset" ≠ 0 then
        (match cast.to_double (dict.get "lo_offset") with
          | some x => pure x
          | none => throw exception.bad_lexical_cast)
      else pure 0.0 : Except exception ℚ) = pure x := by
    by_cases h2 : dict.count "lo_offset" ≠ 0
    · rw [if_pos h2] at hx ⊢; rw [hx]
    · rw [if_neg h2] at hx ⊢
      have : (0 : ℚ) = x := by simpa using hx
      rw [← this]; norm_num
  simp only [uhd_source_c.construct]
  rw [e1, e2]
  refine ⟨_, rfl, ?_⟩
  rw [foldl_connect]
  by_cases hs : dict.count "subdev" ≠ 0 <;>
    simp [hs, usrp_source.make, usrp_source.get_subdev_spec, usrp_source.set_subdev_spec,
      usrp_source.record]

/-- The constructor throws `bad_lexical_cast` when a numeric option is present
and does not parse. -/
theorem construct_throws (cast : lexical_cast) (dict : dict_t)
    (h : (dict.count "nchan" ≠ 0 ∧ cast.to_size_t (dict.get "nchan") = none) ∨
      (dict.count "lo_offset" ≠ 0 ∧ cast.to_double (dict.get "lo_offset") = none)) :
    uhd_source_c.construct cast dict = .error exception.bad_lexical_cast := by
  simp only [uhd_source_c.construct]
  rcases h with ⟨h1, h2⟩ | ⟨h1, h2⟩
  · rw [if_pos h1, h2]
    rfl
  · rw [if_pos h1, h2]
    by_cases h3 : dict.count "nchan" ≠ 0
    · rw [if_pos h3]
      cases cast.to_size_t (dict.get "nchan") <;> rfl
    · rw [if_neg h3]
      rfl

/-- Either both numeric options, where present, parse, or one of them is
present and does not. -/
theorem numeric_options_parse_or_fail (cast : lexical_cast) (dict : dict_t) :
    (∃ n x,
      (if dict.count "nchan" ≠ 0 then cast.to_size_t (dict.get "nchan") else some 1) = some n ∧
      (if dict.count "lo_offset" ≠ 0 then cast.to_double (dict.get "lo_offset") else some 0)
        = some x) ∨
    ((dict.count "nchan" ≠ 0 ∧ cast.to_size_t (dict.get "nchan") = none) ∨
      (dict.count "lo_offset" ≠ 0 ∧ cast.to_double (dict.get "lo_offset") = none)) := by
  by_cases h1 : dict.count "nchan" ≠ 0 ∧ cast.to_size_t (dict.get "nchan") = none
  · exact Or.inr (Or.inl h1)
  by_cases h2 : dict.count "lo_offset" ≠ 0 ∧ cast.to_double (dict.get "lo_offset") = none
  · exact Or.inr (Or.inr h2)
  have hn : ∃ n, (if dict.count "nchan" ≠ 0 then cast.to_size_t (dict.get "nchan") else some 1)
      = some n := by
    by_cases c : dict.count "nchan" ≠ 0
    · rw [if_pos c]
      exact Option.ne_none_iff_exists'.mp (fun e => h1 ⟨c, e⟩)
    · rw [if_neg c]; exact ⟨1, rfl⟩
  have hx : ∃ x, (if dict.count "lo_offset" ≠ 0 then cast.to_double (dict.get "lo_offset")
      else some 0) = some x := by
    by_cases c : dict.count "lo_offset" ≠ 0
    · rw [if_pos c]
      exact Option.ne_none_iff_exists'.mp (fun e => h2 ⟨c, e⟩)
    · rw [if_neg c]; exact ⟨0, rfl⟩
  obtain ⟨n, hn⟩ := hn
  obtain ⟨x, hx⟩ := hx
  exact Or.inl ⟨n, x, hn, hx⟩

/-- C1. The argument string the constructor forwards to the driver is the
concatenation, in the iteration order of the configuration map, of the pieces
`key=value,` of exactly the entries whose key is none of uhd, nchan, subdev,
lo_offset, clock_source, with key and value unmodified; the constructor forwards
it unless a numeric option fails to parse.  For the argument string
`uhd,nchan=2,subdev=A:0 B:0,lo_offset=1000,clock_source=external,serial=1234`
the forwarded string is `serial=1234,`. -/
theorem construct_forwards_unreserved (cast : lexical_cast) (dict : dict_t) :
    ((∃ self, uhd_source_c.construct cast dict = .ok self ∧
        self._src.dev.device_addr =
          String.join ((dict.entries.filter (fun entry =>
              entry.1 ∉ ["uhd", "nchan", "subdev", "lo_offset", "clock_source"])).map
            (fun entry => entry.1 ++ "=" ++ entry.2 ++ ","))) ∨
      (uhd_source_c.construct cast dict = .error exception.bad_lexical_cast ∧
        ((dict.count "nchan" ≠ 0 ∧ cast.to_size_t (dict.get "nchan") = none) ∨
          (dict.count "lo_offset" ≠ 0 ∧ cast.to_double (dict.get "lo_offset") = none)))) ∧
    (uhd_source_c.make_uhd_source_c decimal_cast
        "uhd,nchan=2,subdev=A:0 B:0,lo_offset=1000,clock_source=external,serial=1234").toOption.map
      (fun self => self._src.dev.device_addr) = some "serial=1234," := by
  refine ⟨?_, by decide!⟩
  rcases numeric_options_parse_or_fail cast dict with ⟨n, x, hn, hx⟩ | hfail
  swap
  · exact Or.inr ⟨construct_throws cast dict hfail, hfail⟩
  obtain ⟨self, hs, ha, -⟩ := construct_returns cast dict n x hn hx
  exact Or.inl ⟨self, hs, by rw [ha, rebuild_arguments_eq]⟩

/-- C2. Unless a numeric option fails to parse, the constructor returns, and
its channel count `k` is 1 when the nchan option is absent, the parsed value of
nchan when that is at least 1, and 1 when it parses to 0; the driver is made
with exactly `k` channels, and the connections made are exactly the pairs
(device output i, adapter output i) for i = 0 .. k-1, in increasing order. -/
theorem construct_channel_count (cast : lexical_cast) (dict : dict_t) :
    ((∃ self k, uhd_source_c.construct cast dict = .ok self ∧
        (dict.count "nchan" = 0 → k = 1) ∧
        (∀ n, dict.count "nchan" ≠ 0 → cast.to_size_t (dict.get "nchan") = some n →
          (1 ≤ n → k = n) ∧ (n = 0 → k = 1)) ∧
        self._src.dev.num_channels = k ∧
        self.connections = (List.range k).map (fun i => (i, i))) ∨
      (uhd_source_c.construct cast dict = .error exception.bad_lexical_cast ∧
        ((dict.count "nchan" ≠ 0 ∧ cast.to_size_t (dict.get "nchan") = none) ∨
          (dict.count "lo_offset" ≠ 0 ∧ cast.to_double (dict.get "lo_offset") = none)))) ∧
    (uhd_source_c.make_uhd_source_c decimal_cast
        "uhd,nchan=2,subdev=A:0 B:0,lo_offset=1000,clock_source=external,serial=1234").toOption.map
      (fun self => (self._src.dev.num_channels, self.connections)) = some (2, [(0, 0), (1, 1)]) ∧
    (uhd_source_c.make_uhd_source_c decimal_cast "uhd,nchan=0").toOption.map
      (fun self => (self._src.dev.num_channels, self.connections)) = some (1, [(0, 0)]) ∧
    (uhd_source_c.make_uhd_source_c decimal_cast "uhd").toOption.map
      (fun self => (self._src.dev.num_channels, self.connections)) = some (1, [(0, 0)]) := by
  refine ⟨?_, by decide!, by decide!, by decide!⟩
  rcases numeric_options_parse_or_fail cast dict with ⟨n, x, hn, hx⟩ | hfail
  swap
  · exact Or.inr ⟨construct_throws cast dict hfail, hfail⟩
  obtain ⟨self, hs, -, -, hk, hc, -⟩ := construct_returns cast dict n x hn hx
  refine Or.inl ⟨self, if 0 = n then 1 else n, hs, ?_, ?_, hk, hc⟩
  · intro c
    rw [if_neg (not_not.mpr c)] at hn
    cases hn
    rfl
  · intro m c hm
    rw [if_pos c, hm] at hn
    cases hn
    constructor
    · intro h; rw [if_neg (by omega)]
    · intro h; rw [if_pos h.symm]

/-! ## Tuning -/

theorem APPLY_PPM_CORR_eq (val ppm : ℚ) :
    APPLY_PPM_CORR val ppm = val * (1 + ppm * 0.000001) := by
  unfold APPLY_PPM_CORR
  norm_num

/-- What one call `set_center_freq(freq, chan)` does to the calls received by
the driver and to the tuning state, and what it returns. -/
theorem set_center_freq_effect (freq : ℚ) (chan : Nat) (self : uhd_source_c) :
    (self.set_center_freq freq chan).2._src.calls
        = self._src.calls ++
          [driver_call.set_center_freq
              ⟨freq * (1 + self._freq_corr * 0.000001), self._lo_offset⟩ chan,
            driver_call.get_center_freq chan] ∧
      (self.set_center_freq freq chan).2._center_freq = freq ∧
      (self.set_center_freq freq chan).2._freq_corr = self._freq_corr ∧
      (self.set_center_freq freq chan).2._lo_offset = self._lo_offset ∧
      (self.set_center_freq freq chan).1
        = (usrp_source.get_center_freq chan (self.set_center_freq freq chan).2._src).1 := by
  refine ⟨?_, rfl, rfl, rfl, ?_⟩
  · simp [uhd_source_c.set_center_freq, uhd_source_c.get_center_freq,
      usrp_source.get_center_freq, usrp_source.set_center_freq, usrp_source.record,
      APPLY_PPM_CORR_eq]
  · simp [uhd_source_c.set_center_freq, uhd_source_c.get_center_freq,
      usrp_source.get_center_freq, usrp_source.set_center_freq, usrp_source.record]

/-- C3. The call `set_center_freq(freq, chan)` passes to the driver exactly one
tune request, on channel `chan`, with target `freq * (1 + ppm * 0.000001)` and
LO offset `lo_offset`, followed by one read of the center frequency of `chan`;
afterwards the stored center frequency is the uncorrected `freq`, the correction
and the LO offset are unchanged, and the value returned is the center frequency
the driver reports for `chan`.  With a correction of 0 the target is `freq`. -/
theorem set_center_freq_issues_one_tune_request (freq : ℚ) (chan : Nat) (self : uhd_source_c) :
    (self.set_center_freq freq chan).2._src.calls
        = self._src.calls ++
          [driver_call.set_center_freq
              ⟨freq * (1 + self._freq_corr * 0.000001), self._lo_offset⟩ chan,
            driver_call.get_center_freq chan] ∧
      tune_requests (self.set_center_freq freq chan).2._src.calls
        = tune_requests self._src.calls ++
          [(⟨freq * (1 + self._freq_corr * 0.000001), self._lo_offset⟩, chan)] ∧
      (self.set_center_freq freq chan).2._center_freq = freq ∧
      (self.set_center_freq freq chan).2._freq_corr = self._freq_corr ∧
      (self.set_center_freq freq chan).2._lo_offset = self._lo_offset ∧
      (self.set_center_freq freq chan).1
        = (usrp_source.get_center_freq chan (self.set_center_freq freq chan).2._src).1 ∧
      (self._freq_corr = 0 →
        tune_requests (self.set_center_freq freq chan).2._src.calls
          = tune_requests self._src.calls ++ [(⟨freq, self._lo_offset⟩, chan)]) := by
  obtain ⟨hc, h1, h2, h3, h4⟩ := set_center_freq_effect freq chan self
  refine ⟨hc, ?_, h1, h2, h3, h4, ?_⟩
  · rw [hc]; simp [tune_requests, List.filterMap_append]
  · intro h0
    rw [hc, h0]; simp [tune_requests, List.filterMap_append]


/-- What one call `set_freq_corr(ppm, chan)` does: the correction is stored, the
default channel is retuned from the stored center frequency, which is kept, and
`ppm` is returned. -/
theorem set_freq_corr_effect (ppm : ℚ) (chan : Nat) (self : uhd_source_c) :
    (self.set_freq_corr ppm chan).1 = ppm ∧
      (self.set_freq_corr ppm chan).2._center_freq = self._center_freq ∧
      (self.set_freq_corr ppm chan).2._freq_corr = ppm ∧
      (self.set_freq_corr ppm chan).2._lo_offset = self._lo_offset ∧
      (self.set_freq_corr ppm chan).2._src.calls
        = self._src.calls ++
          [driver_call.set_center_freq
              ⟨self._center_freq * (1 + ppm * 0.000001), self._lo_offset⟩ default_chan,
            driver_call.get_center_freq default_chan] := by
  simp [uhd_source_c.set_freq_corr, uhd_source_c.get_freq_corr, uhd_source_c.set_center_freq,
    uhd_source_c.get_center_freq, usrp_source.get_center_freq, usrp_source.set_center_freq,
    usrp_source.record, APPLY_PPM_CORR_eq]

/-- A run of corrections keeps the stored center frequency and LO offset. -/
theorem foldl_set_freq_corr_keeps (corrections : List (ℚ × Nat)) (self : uhd_source_c) :
    (corrections.foldl (fun self pc => (self.set_freq_corr pc.1 pc.2).2) self)._center_freq
        = self._center_freq ∧
      (corrections.foldl (fun self pc => (self.set_freq_corr pc.1 pc.2).2) self)._lo_offset
        = self._lo_offset := by
  induction corrections generalizing self with
  | nil => exact ⟨rfl, rfl⟩
  | cons pc rest ih =>
    rw [List.foldl_cons]
    obtain ⟨h1, h2⟩ := ih (self.set_freq_corr pc.1 pc.2).2
    obtain ⟨-, h3, -, h4, -⟩ := set_freq_corr_effect pc.1 pc.2 self
    exact ⟨h1.trans h3, h2.trans h4⟩

/-- C4. After `set_center_freq(f)` and then `set_freq_corr(p1)`, ...,
`set_freq_corr(pn)` (n at least 1, on any channels), the last tune request
passed to the driver has target `f * (1 + pn * 0.000001)`: the corrections do
not compound.  The stored center frequency is still `f`, the stored correction
is `pn`, the last call returned `pn`, and `get_freq_corr` then returns `pn`. -/
theorem corrections_do_not_compound (f : ℚ) (chan : Nat) (corrections : List (ℚ × Nat))
    (pn : ℚ) (cn : Nat) (self : uhd_source_c) :
    (tune_requests
        (tune_then_correct f chan (corrections ++ [(pn, cn)]) self)._src.calls).getLast?
        = some (⟨f * (1 + pn * 0.000001), self._lo_offset⟩, default_chan) ∧
      (tune_then_correct f chan (corrections ++ [(pn, cn)]) self)._center_freq = f ∧
      (tune_then_correct f chan (corrections ++ [(pn, cn)]) self)._freq_corr = pn ∧
      ((tune_then_correct f chan corrections self).set_freq_corr pn cn).1 = pn ∧
      ∀ c, ((tune_then_correct f chan (corrections ++ [(pn, cn)]) self).get_freq_corr c).1
        = pn := by
  have hlast : tune_then_correct f chan (corrections ++ [(pn, cn)]) self
      = ((tune_then_correct f chan corrections self).set_freq_corr pn cn).2 := by
    simp [tune_then_correct, List.foldl_append]
  obtain ⟨hcf, hlo⟩ := foldl_set_freq_corr_keeps corrections (self.set_center_freq f chan).2
  have hcf' : (tune_then_correct f chan corrections self)._center_freq = f := by
    unfold tune_then_correct; rw [hcf]
    exact (set_center_freq_effect f chan self).2.1
  have hlo' : (tune_then_correct f chan corrections self)._lo_offset = self._lo_offset := by
    unfold tune_then_correct; rw [hlo]
    exact (set_center_freq_effect f chan self).2.2.2.1
  obtain ⟨e1, e2, e3, -, e5⟩ :=
    set_freq_corr_effect pn cn (tune_then_correct f chan corrections self)
  rw [hlast]
  refine ⟨?_, e2.trans hcf', e3, e1, ?_⟩
  · rw [e5, hcf', hlo']
    simp [tune_requests, List.filterMap_append]
  · intro c
    simp [uhd_source_c.get_freq_corr, e3]

/-! ## Corrections -/

/-- The literal `0.0` is zero. -/
theorem zero_literal : (0.0 : ℚ) = 0 := by norm_num


/-- A call `set_center_freq(freq, c)` leaves the tune request held by the
driver for every other channel as it was. -/
theorem set_center_freq_frame (freq : ℚ) (c c' : Nat) (h : c' ≠ c) (self : uhd_source_c) :
    (self.set_center_freq freq c).2._src.dev.tune c' = self._src.dev.tune c' := by
  simp [uhd_source_c.set_center_freq, uhd_source_c.get_center_freq,
    usrp_source.get_center_freq, usrp_source.set_center_freq, usrp_source.record,
    Function.update_noteq h]

/-- C5, at the failing input.  On the two-channel adapter with channel 0 tuned
to 100 and channel 1 tuned to 200, the call `set_freq_corr(5, 1)`, addressed to
channel 1, issues its one tune request on channel 0, and moves the tuned
frequency of channel 0 from 100 to 200.001 while channel 1 stays at 200. -/
theorem set_freq_corr_retunes_default_channel :
    tune_requests
        ((two_channels_tuned.set_freq_corr 5 1).2._src.calls.drop
          two_channels_tuned._src.calls.length)
        = [(⟨200.001, 0⟩, 0)] ∧
      (two_channels_tuned._src.dev.tune 0).target_freq = 100 ∧
      ((two_channels_tuned.set_freq_corr 5 1).2._src.dev.tune 0).target_freq = 200.001 ∧
      (two_channels_tuned._src.dev.tune 1).target_freq = 200 ∧
      ((two_channels_tuned.set_freq_corr 5 1).2._src.dev.tune 1).target_freq = 200 := by
  decide!

/-- C6. The call `set_iq_balance_mode(Automatic, chan)` throws a runtime error
with the message "Automatic IQ imbalance correction not implemented", makes no
driver call, and leaves the adapter and the driver exactly as they were. -/
theorem set_iq_balance_mode_automatic_throws (chan : Nat) (self : uhd_source_c) :
    (self.set_iq_balance_mode IQBalanceAutomatic chan).1
        = .error (exception.runtime_error "Automatic IQ imbalance correction not implemented") ∧
      (self.set_iq_balance_mode IQBalanceAutomatic chan).2 = self ∧
      (self.set_iq_balance_mode IQBalanceAutomatic chan).2._src.calls = self._src.calls ∧
      (self.set_iq_balance_mode IQBalanceAutomatic chan).2.tuning_state = self.tuning_state ∧
      (self.set_iq_balance_mode IQBalanceAutomatic chan).2._src.dev = self._src.dev := by
  have h : self.set_iq_balance_mode IQBalanceAutomatic chan
      = (.error (exception.runtime_error "Automatic IQ imbalance correction not implemented"),
        self) := by
    simp [uhd_source_c.set_iq_balance_mode, IQBalanceAutomatic, IQBalanceOff, IQBalanceManual]
  rw [h]
  exact ⟨rfl, rfl, rfl, rfl, rfl⟩

/-- C7. After `set_dc_offset_mode(Off, chan)` the automatic DC correction of
`chan` is disabled and its DC offset is (0, 0), whatever they were before; after
`set_dc_offset_mode(Manual, chan)` the automatic correction of `chan` is
disabled and its DC offset is the one it had before the call; after
`set_dc_offset_mode(Automatic, chan)` the automatic correction of `chan` is
enabled. -/
theorem set_dc_offset_mode_effect (chan : Nat) (self : uhd_source_c) :
    ((self.set_dc_offset_mode DCOffsetOff chan)._src.dev.auto_dc_offset chan = false ∧
        (self.set_dc_offset_mode DCOffsetOff chan)._src.dev.dc_offset chan = (0, 0)) ∧
      ((self.set_dc_offset_mode DCOffsetManual chan)._src.dev.auto_dc_offset chan = false ∧
        (self.set_dc_offset_mode DCOffsetManual chan)._src.dev.dc_offset chan
          = self._src.dev.dc_offset chan) ∧
      (self.set_dc_offset_mode DCOffsetAutomatic chan)._src.dev.auto_dc_offset chan = true := by
  refine ⟨⟨?_, ?_⟩, ⟨?_, ?_⟩, ?_⟩ <;>
    simp [uhd_source_c.set_dc_offset_mode, DCOffsetOff, DCOffsetManual, DCOffsetAutomatic,
      usrp_source.set_auto_dc_offset, usrp_source.set_dc_offset, zero_literal]

/-- C8. After `set_iq_balance_mode(Off, chan)` the IQ balance of `chan` held by
the driver is (0, 0), whatever it was before; `set_iq_balance_mode(Manual,
chan)` returns normally, makes no driver call and leaves the adapter and the
driver, the IQ balance of every channel included, exactly as they were. -/
theorem set_iq_balance_mode_off_manual (chan : Nat) (self : uhd_source_c) :
    ((self.set_iq_balance_mode IQBalanceOff chan).1 = .ok () ∧
        (self.set_iq_balance_mode IQBalanceOff chan).2._src.dev.iq_balance chan = (0, 0)) ∧
      ((self.set_iq_balance_mode IQBalanceManual chan).1 = .ok () ∧
        (self.set_iq_balance_mode IQBalanceManual chan).2 = self ∧
        (self.set_iq_balance_mode IQBalanceManual chan).2._src.calls = self._src.calls ∧
        ∀ c, (self.set_iq_balance_mode IQBalanceManual chan).2._src.dev.iq_balance c
          = self._src.dev.iq_balance c) := by
  have h : self.set_iq_balance_mode IQBalanceManual chan = (.ok (), self) := by
    simp [uhd_source_c.set_iq_balance_mode, IQBalanceOff, IQBalanceManual]
  rw [h]
  refine ⟨⟨?_, ?_⟩, rfl, rfl, rfl, fun _ => rfl⟩ <;>
    simp [uhd_source_c.set_iq_balance_mode, IQBalanceOff, usrp_source.set_iq_balance,
      zero_literal]

/-! ## Device listing -/

theorem foldl_push_eq_map {α β : Type} (f : α → β) (l : List α) (init : List β) :
    l.foldl (fun acc a => acc ++ [f a]) init = init ++ l.map f := by
  induction l generalizing init with
  | nil => simp
  | cons a l ih => rw [List.foldl_cons, ih]; simp

theorem length_ne_zero_iff (s : String) : s.length ≠ 0 ↔ s ≠ "" := by
  rw [Ne, Ne, String.length, List.length_eq_zero]
  constructor
  · intro h e; exact h (by rw [e])
  · intro h e; exact h (String.ext e)

/-- C9. The listing has one string per discovered device, in the same order,
each `uhd,` followed by the driver-reported arguments, then `,label=`, then the
label between single quotes; the label is the vendor (Fairwaves for type umtrx,
Ettus otherwise), then the upper-case type when the type is non-empty (usrp when
absent), then the name in parentheses when non-empty, then the serial when
non-empty.  A device of type umtrx with serial 42 is labelled
`Fairwaves UMTRX 42`, a device with no field `Ettus USRP`. -/
theorem get_devices_labels (to_string : device_addr_t → String) (found : List device_addr_t) :
    uhd_source_c.get_devices to_string found
        = found.map (fun dev =>
            "uhd," ++ to_string dev ++ ",label='" ++ spec_label dev ++ "'") ∧
      (uhd_source_c.get_devices to_string found).length = found.length ∧
      uhd_source_c.get_devices to_string [⟨[("type", "umtrx"), ("serial", "42")]⟩, ⟨[]⟩]
        = ["uhd," ++ to_string ⟨[("type", "umtrx"), ("serial", "42")]⟩
            ++ ",label='Fairwaves UMTRX 42'",
          "uhd," ++ to_string ⟨[]⟩ ++ ",label='Ettus USRP'"] := by
  have main : ∀ l : List device_addr_t, uhd_source_c.get_devices to_string l
      = l.map (fun dev => "uhd," ++ to_string dev ++ ",label='" ++ spec_label dev ++ "'") := by
    intro l
    unfold uhd_source_c.get_devices
    rw [foldl_push_eq_map]
    simp only [List.nil_append]
    apply List.map_congr_left
    intro dev _
    simp only [spec_label, length_ne_zero_iff]
    by_cases h1 : "umtrx" = dev.cast "type" "usrp" <;>
      by_cases h2 : dev.cast "type" "usrp" ≠ "" <;>
      by_cases h3 : dev.cast "name" "" ≠ "" <;>
      by_cases h4 : dev.cast "serial" "" ≠ "" <;>
      simp [h1, h2, h3, h4, eq_comm, String.append_assoc]
  refine ⟨main found, ?_, ?_⟩
  · rw [main, List.length_map]
  · rw [main]
    have e1 : spec_label ⟨[("type", "umtrx"), ("serial", "42")]⟩ = "Fairwaves UMTRX 42" := by
      decide
    have e2 : spec_label ⟨[]⟩ = "Ettus USRP" := by decide
    simp [e1, e2, String.append_assoc]

/-! ## Idempotence of the setters -/

/-- C10. Applying a setter twice with the same arguments gives the same tuning
state `(center_freq, freq_corr, lo_offset)` and the same driver state as
applying it once, and the second call returns what the first returned. -/
theorem setter_apply_idempotent (op : setter) (self : uhd_source_c) :
    (op.apply (op.apply self).2).1 = (op.apply self).1 ∧
      (op.apply (op.apply self).2).2.tuning_state = (op.apply self).2.tuning_state ∧
      (op.apply (op.apply self).2).2._src.dev = (op.apply self).2._src.dev := by
  cases op with
  | set_dc_offset_mode mode chan =>
    simp only [setter.apply, uhd_source_c.set_dc_offset_mode]
    split_ifs <;>
      simp [uhd_source_c.tuning_state, usrp_source.set_auto_dc_offset, usrp_source.set_dc_offset]
  | set_iq_balance_mode mode chan =>
    simp only [setter.apply, uhd_source_c.set_iq_balance_mode]
    split_ifs <;>
      simp [uhd_source_c.tuning_state, usrp_source.set_iq_balance]
  | _ =>
    simp [setter.apply, uhd_source_c.tuning_state, uhd_source_c.set_sample_rate,
      uhd_source_c.get_sample_rate, uhd_source_c.set_center_freq, uhd_source_c.get_center_freq,
      uhd_source_c.set_freq_corr, uhd_source_c.get_freq_corr, uhd_source_c.set_gain,
      uhd_source_c.get_gain, uhd_source_c.set_gain_named, uhd_source_c.get_gain_named,
      uhd_source_c.set_antenna, uhd_source_c.set_bandwidth, uhd_source_c.set_clock_source,
      uhd_source_c.get_clock_source, uhd_source_c.set_dc_offset, uhd_source_c.set_iq_balance,
      usrp_source.set_samp_rate, usrp_source.get_samp_rate, usrp_source.set_center_freq,
      usrp_source.get_center_freq, usrp_source.set_clock_source, usrp_source.get_clock_source,
      usrp_source.set_gain, usrp_source.get_gain, usrp_source.set_gain_named,
      usrp_source.get_gain_named, usrp_source.set_antenna, usrp_source.get_antenna,
      usrp_source.set_dc_offset, usrp_source.set_iq_balance, usrp_source.set_bandwidth,
      usrp_source.get_bandwidth, usrp_source.record]

end UhdSource
